import Mathlib

/-!
Verification of `generate_prompts.py` (realtime-metrics-dashboard prompt
generator).  The script holds a static list of task records, renders each
one into a markdown document with `generate_prompt`, and writes each
document to `<base_dir>/<2-digit num>-<scope>.md`, printing one console
line per record and a final summary.

The shallow embedding below translates the script directly: each record is
a `Prompt` structure (Python dict with `p.get` defaults for the optional
keys), the rendered document is a `String` built by the same sequence of
conditional concatenations as the Python `content` accumulator, and the
write loop is modelled as a pure fold over an explicit filesystem state.
-/

/-- One entry of the Python `prompts` list.  The keys `num`, `title` and
`objective` are accessed with `p['...']`; the rest are read with
`p.get(key, default)`, so they are total fields here with the Python
defaults (`[]` for the lists, `""` for `commands`, `"viewer"` would be the
default for `scope` but every record supplies it). -/
structure Prompt where
  num : Nat
  title : String
  objective : String
  depends : List String
  files : List String
  commands : String
  scope : String
  decisions : List String
  edge_cases : List String
  code_refs : List String
deriving DecidableEq

/-- `base_dir` constant from line 4 of the script. -/
def base_dir : String :=
  "C:/Users/bobby/src/claude/claude-hall-monitor/dev/active/realtime-metrics-dashboard/prompts"

/-- Python `f"{n:02d}"` for a non-negative integer: decimal digits padded
with zeros on the left to width 2. -/
def pad2 (n : Nat) : String :=
  if n < 10 then "0" ++ toString n else toString n

/-- Python `f"{n:03d}"` for a non-negative integer: decimal digits padded
with zeros on the left to width 3. -/
def pad3 (n : Nat) : String :=
  if n < 10 then "00" ++ toString n
  else if n < 100 then "0" ++ toString n
  else toString n

/-- Python `str.lower()` restricted to ASCII, which covers every `title`
in the record table (all titles are plain ASCII). -/
def pyLower (s : String) : String :=
  ⟨s.data.map Char.toLower⟩

/-- Python `sep.join(xs)`: the elements of `xs` separated by `sep`. -/
def joinSep (sep : String) : List String → String
  | [] => ""
  | [x] => x
  | x :: xs => x ++ sep ++ joinSep sep xs

/-- Concatenation of a list of strings (the script's `for`-loop appends). -/
def concatAll : List String → String
  | [] => ""
  | x :: xs => x ++ concatAll xs

/-- Record F010 (the comments `# F010` … `# F032` in the script label the
entries of `prompts`). -/
def f010 : Prompt :=
  { num := 10, title := "Install shadcn/ui Data Display Components",
    objective := "Install shadcn/ui components for data display: card, badge, progress, table, tabs.",
    depends := ["F003"], files := ["src/components/ui/*"],
    commands := "bun x shadcn@latest add card badge progress table tabs", scope := "shadcn-data",
    decisions := [], edge_cases := [], code_refs := [] }

/-- Record F011 of the script's `prompts` table. -/
def f011 : Prompt :=
  { num := 11, title := "Install shadcn/ui Form & Feedback Components",
    objective := "Install shadcn/ui components: button, input, select, dropdown-menu, tooltip, skeleton, toast, alert.",
    depends := ["F003"], files := ["src/components/ui/*"],
    commands := "bun x shadcn@latest add button input select dropdown-menu tooltip skeleton toast alert", scope := "shadcn-forms",
    decisions := [], edge_cases := [], code_refs := [] }

/-- Record F012 of the script's `prompts` table. -/
def f012 : Prompt :=
  { num := 12, title := "Install shadcn/ui Chart Components",
    objective := "Install shadcn/ui chart components and Recharts dependency.",
    depends := ["F003"], files := ["src/components/ui/chart.tsx"],
    commands := "bun x shadcn@latest add chart", scope := "shadcn-charts",
    decisions := [], edge_cases := [], code_refs := [] }

/-- Record F013 of the script's `prompts` table. -/
def f013 : Prompt :=
  { num := 13, title := "Build Layout Components",
    objective := "Create app-sidebar, header, and page-container layout components.",
    depends := ["F009"], files := ["src/components/layout/app-sidebar.tsx", "src/components/layout/header.tsx", "src/components/layout/page-container.tsx"],
    commands := "", scope := "layout", decisions := ["D003"], edge_cases := [], code_refs := ["code/typescript.md#components"] }

/-- Record F014 of the script's `prompts` table. -/
def f014 : Prompt :=
  { num := 14, title := "Create App Shell with Layout",
    objective := "Update App.tsx with sidebar, header, and main content area layout.",
    depends := ["F004", "F013"], files := ["src/App.tsx"],
    commands := "", scope := "app-shell", decisions := [], edge_cases := [], code_refs := ["code/typescript.md#components"] }

/-- Record F015 of the script's `prompts` table. -/
def f015 : Prompt :=
  { num := 15, title := "Build Plan Card Components",
    objective := "Create plan-card (expanded) and plan-card-compact components.",
    depends := ["F010"], files := ["src/components/plans/plan-card.tsx", "src/components/plans/plan-card-compact.tsx"],
    commands := "", scope := "plans", decisions := ["D009"], edge_cases := ["EC003"], code_refs := ["code/typescript.md#components"] }

/-- Record F016 of the script's `prompts` table. -/
def f016 : Prompt :=
  { num := 16, title := "Build Active Orchestrations Component",
    objective := "Create active-orchestrations component with SSE integration for realtime updates.",
    depends := ["F015", "F008"], files := ["src/components/plans/active-orchestrations.tsx"],
    commands := "", scope := "plans", decisions := ["D001", "D007"], edge_cases := ["EC001", "EC002", "EC003"], code_refs := ["code/typescript.md#components"] }

/-- Record F017 of the script's `prompts` table. -/
def f017 : Prompt :=
  { num := 17, title := "Build Metrics Display Components",
    objective := "Create stat-card and metrics-grid components.",
    depends := ["F010"], files := ["src/components/metrics/stat-card.tsx", "src/components/metrics/metrics-grid.tsx"],
    commands := "", scope := "metrics", decisions := [], edge_cases := [], code_refs := ["code/typescript.md#components"] }

/-- Record F018 of the script's `prompts` table. -/
def f018 : Prompt :=
  { num := 18, title := "Build Chart Components",
    objective := "Create cost-chart (area) and tokens-chart (bar) components using Recharts.",
    depends := ["F012"], files := ["src/components/metrics/cost-chart.tsx", "src/components/metrics/tokens-chart.tsx"],
    commands := "", scope := "metrics", decisions := ["D011"], edge_cases := [], code_refs := ["code/typescript.md#components"] }

/-- Record F019 of the script's `prompts` table. -/
def f019 : Prompt :=
  { num := 19, title := "Build Plan List and Detail Components",
    objective := "Create plan-list, plan-detail, and feature-list components.",
    depends := ["F010"], files := ["src/components/plans/plan-list.tsx", "src/components/plans/plan-detail.tsx", "src/components/plans/feature-list.tsx"],
    commands := "", scope := "plans", decisions := ["D004"], edge_cases := ["EC008", "EC009"], code_refs := ["code/typescript.md#components"] }

/-- Record F020 of the script's `prompts` table. -/
def f020 : Prompt :=
  { num := 20, title := "Build Orchestration Timeline",
    objective := "Create orchestration-timeline component for visual parallel execution.",
    depends := ["F010"], files := ["src/components/plans/orchestration-timeline.tsx"],
    commands := "", scope := "plans", decisions := ["D005"], edge_cases := [], code_refs := ["code/typescript.md#components"] }

/-- Record F021 of the script's `prompts` table. -/
def f021 : Prompt :=
  { num := 21, title := "Build Session Components",
    objective := "Create session-list, session-detail, and tool-usage-chart components.",
    depends := ["F010", "F012"], files := ["src/components/sessions/session-list.tsx", "src/components/sessions/session-detail.tsx", "src/components/sessions/tool-usage-chart.tsx"],
    commands := "", scope := "sessions", decisions := [], edge_cases := ["EC005"], code_refs := ["code/typescript.md#components"] }

/-- Record F022 of the script's `prompts` table. -/
def f022 : Prompt :=
  { num := 22, title := "Build Overview Page",
    objective := "Assemble Overview page with ActiveOrchestrations, MetricsGrid, and Charts.",
    depends := ["F016", "F017", "F018"], files := ["src/pages/overview.tsx"],
    commands := "", scope := "overview", decisions := ["D001"], edge_cases := ["EC002"], code_refs := ["code/typescript.md#components"] }

/-- Record F023 of the script's `prompts` table. -/
def f023 : Prompt :=
  { num := 23, title := "Build Plans Page",
    objective := "Assemble Plans page with tabs, PlanList, PlanDetail, and OrchestrationTimeline.",
    depends := ["F019", "F020"], files := ["src/pages/plans.tsx"],
    commands := "", scope := "plans", decisions := ["D004", "D005"], edge_cases := [], code_refs := ["code/typescript.md#components"] }

/-- Record F024 of the script's `prompts` table. -/
def f024 : Prompt :=
  { num := 24, title := "Build Sessions Page",
    objective := "Assemble Sessions page with filters, SessionList, and SessionDetail.",
    depends := ["F021"], files := ["src/pages/sessions.tsx"],
    commands := "", scope := "sessions", decisions := ["D004"], edge_cases := ["EC005"], code_refs := ["code/typescript.md#components"] }

/-- Record F025 of the script's `prompts` table. -/
def f025 : Prompt :=
  { num := 25, title := "Build Settings Page",
    objective := "Create Settings page with theme toggle and preferences.",
    depends := ["F011"], files := ["src/pages/settings.tsx"],
    commands := "", scope := "settings", decisions := [], edge_cases := [], code_refs := ["code/typescript.md#components"] }

/-- Record F026 of the script's `prompts` table. -/
def f026 : Prompt :=
  { num := 26, title := "Implement Loading and Error States",
    objective := "Add skeletons, error boundaries, toasts, and empty states to all pages.",
    depends := ["F011", "F022", "F023", "F024"], files := ["src/components/ui/error-boundary.tsx", "src/lib/toast.ts"],
    commands := "", scope := "polish", decisions := [], edge_cases := ["EC002", "EC004", "EC010"], code_refs := ["code/typescript.md#error-handling"] }

/-- Record F027 of the script's `prompts` table. -/
def f027 : Prompt :=
  { num := 27, title := "Add Responsive Design",
    objective := "Implement mobile viewport handling with collapsible sidebar.",
    depends := ["F014"], files := ["src/App.tsx", "src/components/layout/app-sidebar.tsx"],
    commands := "", scope := "responsive", decisions := [], edge_cases := ["EC007"], code_refs := ["code/css.md#responsive"] }

/-- Record F028 of the script's `prompts` table. -/
def f028 : Prompt :=
  { num := 28, title := "Implement Keyboard Shortcuts",
    objective := "Add keyboard shortcuts for navigation and sidebar toggle.",
    depends := ["F014", "F022", "F023", "F024"], files := ["src/hooks/use-keyboard.ts", "src/App.tsx"],
    commands := "", scope := "keyboard", decisions := [], edge_cases := [], code_refs := ["code/typescript.md#hooks"] }

/-- Record F029 of the script's `prompts` table. -/
def f029 : Prompt :=
  { num := 29, title := "Theme Persistence and System Integration",
    objective := "Implement localStorage theme persistence with system theme fallback.",
    depends := ["F025"], files := ["src/hooks/use-theme.ts", "src/pages/settings.tsx"],
    commands := "", scope := "theme", decisions := [], edge_cases := ["EC006"], code_refs := ["code/typescript.md#hooks"] }

/-- Record F030 of the script's `prompts` table. -/
def f030 : Prompt :=
  { num := 30, title := "Update Server Integration",
    objective := "Modify server.ts to serve React build from dist/.",
    depends := ["F022", "F023", "F024"], files := ["hooks/viewer/server.ts"],
    commands := "", scope := "server", decisions := ["D012"], edge_cases := [], code_refs := ["code/typescript.md#server"] }

/-- Record F031 of the script's `prompts` table. -/
def f031 : Prompt :=
  { num := 31, title := "Configure Vite Build Process",
    objective := "Configure vite.config.ts and update build.ts for production builds.",
    depends := ["F001", "F030"], files := ["hooks/viewer/vite.config.ts", "hooks/build.ts"],
    commands := "", scope := "build", decisions := [], edge_cases := [], code_refs := ["code/html.md#vite-config", "code/bash.md#build"] }

/-- Record F032 of the script's `prompts` table. -/
def f032 : Prompt :=
  { num := 32, title := "Integration Testing and Verification",
    objective := "Test all pages with real API, verify SSE, theme, and keyboard shortcuts.",
    depends := ["F031"], files := ["src/__tests__/integration.test.tsx"],
    commands := "", scope := "testing", decisions := [], edge_cases := [], code_refs := ["code/typescript.md#testing"] }

/-- The static record table (`prompts`, lines 6-168 of the script). -/
def prompts : List Prompt :=
  [f010, f011, f012, f013, f014, f015, f016, f017, f018, f019, f020, f021, f022, f023, f024, f025, f026, f027, f028, f029, f030, f031, f032]


/-! ## The rendered document (`generate_prompt`, lines 170–305)

The Python function accumulates `content` through a fixed sequence of
appends, some of them guarded by truthiness checks on the optional
fields.  Each appended block is a definition below, in the order the
script appends them. -/

/-- Lines 184–199: header, project context, prior work, objective and the
scope-constraint notice. -/
def headerPart (p : Prompt) : String :=
  "# Feature: F" ++ pad3 p.num ++ " - " ++ p.title ++
  "\n\n## Project Context\n\nSee `context.md` for feature rationale and architecture vision.\n\n## Prior Work\n\n" ++
  joinSep "\n" (p.depends.map (fun d => "- **" ++ d ++ "**: Completed")) ++
  "\n\n## Objective\n\n" ++ p.objective ++
  "\n\n> **Scope Constraint**: It is unacceptable to implement features beyond this task's scope.\n"

/-- One bullet of the \"Relevant Decisions\" section (line 206). -/
def decisionBullet (d : String) : String :=
  "- **" ++ d ++ "**: See decisions.md for details"

/-- Lines 202–207: the conditional \"Relevant Decisions\" section body. -/
def decisionsSection (ds : List String) : String :=
  "\n## Relevant Decisions\n\nFrom `decisions.md`:\n" ++
  joinSep "\n" (ds.map decisionBullet) ++ "\n"

/-- Line 201: `if decisions:` guard (empty list is falsy). -/
def decPart (p : Prompt) : String :=
  if p.decisions = [] then "" else decisionsSection p.decisions

/-- One bullet of the \"Edge Cases to Handle\" section (line 214). -/
def edgeCaseBullet (ec : String) : String :=
  "- **" ++ ec ++ "**: See edge-cases.md for handling details"

/-- Lines 210–215: the conditional \"Edge Cases to Handle\" section body. -/
def edgeCasesSection (ecs : List String) : String :=
  "\n## Edge Cases to Handle\n\nFrom `edge-cases.md`:\n" ++
  joinSep "\n" (ecs.map edgeCaseBullet) ++ "\n"

/-- Line 209: `if edge_cases:` guard. -/
def ecPart (p : Prompt) : String :=
  if p.edge_cases = [] then "" else edgeCasesSection p.edge_cases

/-- One bullet of the \"Code References\" section (line 222). -/
def codeRefBullet (r : String) : String :=
  "- `" ++ r ++ "` - Implementation patterns"

/-- Lines 218–223: the conditional \"Code References\" section body. -/
def codeRefsSection (refs : List String) : String :=
  "\n## Code References\n\nRead these sections before implementing:\n" ++
  joinSep "\n" (refs.map codeRefBullet) ++ "\n"

/-- Line 217: `if code_refs:` guard. -/
def crPart (p : Prompt) : String :=
  if p.code_refs = [] then "" else codeRefsSection p.code_refs

/-- Lines 225–232: constraints boilerplate plus the install line when
`commands` is non-empty (`if cmds:`, empty string is falsy). -/
def constraintsPart (p : Prompt) : String :=
  "\n## Constraints\n\n- See `constraints.md` for global rules\n" ++
  (if p.commands = "" then "" else "- Install components using: `" ++ p.commands ++ "`\n")

/-- Lines 234–241: table header plus one row per file target. -/
def filesTablePart (p : Prompt) : String :=
  "\n## Files to Create/Modify\n\n| File | Purpose |\n|------|---------|\n" ++
  concatAll (p.files.map (fun f => "| `hooks/viewer/" ++ f ++ "` | See objective |\n"))

/-- Lines 243–258: implementation details, a fenced command block when
`commands` is non-empty, a generic pointer otherwise. -/
def implPart (p : Prompt) : String :=
  if p.commands = "" then
    "\n## Implementation Details\n\nSee code references for complete implementation patterns.\n"
  else
    "\n## Implementation Details\n\nRun these commands:\n```bash\ncd C:/Users/bobby/src/claude/claude-hall-monitor/hooks/viewer\n" ++
    p.commands ++ "\n```\n"

/-- Lines 260–278: the fixed acceptance-criteria checklist, verification
block and the opening of the commit heredoc, identical for every record. -/
def acceptancePart : String :=
  "\n## Acceptance Criteria\n\n- [ ] All files created/modified as specified\n- [ ] TypeScript compiles without errors\n- [ ] Functionality works as expected\n\n## Verification\n\n```bash\ncd C:/Users/bobby/src/claude/claude-hall-monitor/hooks/viewer\nbun run tsc --noEmit\n```\n\n## Commit\n\n```bash\ngit add hooks/viewer/\ngit commit -m \"$(cat <<\x27EOF\x27\n"

/-- Lines 279–284: the commit message proper — conventional-commit first
line, blank line, objective, blank line, `Implements:` trailer. -/
def commitMsgPart (p : Prompt) : String :=
  "feat(" ++ p.scope ++ "): " ++ pyLower p.title ++ "\n\n" ++ p.objective ++
  "\n\nImplements: F" ++ pad3 p.num ++ "\n"

/-- Lines 286–287: `Decisions:` trailer line when `decisions` is non-empty. -/
def decisionsLine (p : Prompt) : String :=
  if p.decisions = [] then "" else "Decisions: " ++ joinSep ", " p.decisions ++ "\n"

/-- Lines 288–289: `Edge Cases:` trailer line when `edge_cases` is non-empty. -/
def edgeCasesLine (p : Prompt) : String :=
  if p.edge_cases = [] then "" else "Edge Cases: " ++ joinSep ", " p.edge_cases ++ "\n"

/-- Lines 291–298: fixed attribution footer and the close of the commit
heredoc.  The leading four characters reproduce the script's literal
bytes (a double-encoded emoji). -/
def attributionPart : String :=
  "\n\u00F0\u0178\u00A4\u2013 Generated with [Claude Code](https://claude.com/claude-code)\n\nCo-Authored-By: Claude Opus 4.5 <noreply@anthropic.com>\nEOF\n)\"\n```\n"

/-- Line 301: pointer to the next record's expected output filename. -/
def nextPointer (n : Nat) : String :=
  "\n## Next\n\nProceed to: `prompts/" ++ pad2 n ++ "-*.md` (F" ++ pad3 n ++ ")\n"

/-- Line 303: the fixed \"all complete\" sentinel footer. -/
def allCompleteFooter : String :=
  "\n## Next\n\nAll features complete! Create manifest.jsonl and README.md.\n"

/-- Lines 182 and 300–303: `next_num = num + 1 if num < 32 else None`,
then `if next_num:` selects the pointer or the sentinel.  For the
non-negative `num` of a record, `next_num` is truthy exactly when
`num < 32`. -/
def nextPart (p : Prompt) : String :=
  if p.num < 32 then nextPointer (p.num + 1) else allCompleteFooter

/-- Lines 170–305: the full rendered document, the concatenation of the
blocks above in the order the script appends them. -/
def generate_prompt (p : Prompt) : String :=
  headerPart p ++ decPart p ++ ecPart p ++ crPart p ++ constraintsPart p ++
  filesTablePart p ++ implPart p ++ acceptancePart ++ commitMsgPart p ++
  decisionsLine p ++ edgeCasesLine p ++ attributionPart ++ nextPart p

/-! ## File naming and the write loop (lines 307–318) -/

/-- The part of the output filename after `base_dir ++ "/"`:
`f"{num:02d}-{scope}.md"`. -/
def shortName (p : Prompt) : String :=
  pad2 p.num ++ "-" ++ p.scope ++ ".md"

/-- Line 310: `filename = f"{base_dir}/{num:02d}-{p['scope']}.md"`. -/
def derive_filename (p : Prompt) : String :=
  base_dir ++ "/" ++ shortName p

/-- A record with `sequence_number = 7` and `category_tag = "layout"`,
used to check the file-naming round trip from the spec. -/
def layoutRec : Prompt :=
  { num := 7, title := "t", objective := "o", depends := [], files := [],
    commands := "", scope := "layout", decisions := [], edge_cases := [],
    code_refs := [] }


/-! ## Filesystem model for the write loop

`open(filename, 'w')` truncates an existing file and writes the full new
content, and raises `FileNotFoundError` when the parent directory does not
exist — the script never calls `os.makedirs` (the `os` import on line 2 is
unused).  Every write of the script targets `base_dir`, so the state keeps
one flag for that directory plus a path-keyed association list of file
contents. -/

/-- Filesystem state: whether `base_dir` exists, and the files by path. -/
structure FS where
  dirExists : Bool
  files : List (String × String)
deriving DecidableEq

/-- Store `v` under key `k`, replacing an existing binding in place —
`open(..., 'w')` overwrite semantics, not append. -/
def setFile : List (String × String) → String → String → List (String × String)
  | [], k, v => [(k, v)]
  | (k', v') :: t, k, v => if k' = k then (k, v) :: t else (k', v') :: setFile t k v

/-- Content of the file at `k`, if present. -/
def getFile : List (String × String) → String → Option String
  | [], _ => none
  | (k', v') :: t, k => if k' = k then some v' else getFile t k

/-- Lines 313–314: `with open(filename, 'w') as f: f.write(content)`.
Fails like Python's `open` when the directory is missing. -/
def writeDoc (fs : FS) (path content : String) : Except String FS :=
  if fs.dirExists then .ok ⟨true, setFile fs.files path content⟩
  else .error ("FileNotFoundError: " ++ path)

/-- Lines 308–316: the per-record loop body, threaded over the list.  On
success it returns the final state and the `Created F...` console lines in
emission order; an uncaught write failure aborts the run like the Python
exception would. -/
def runLoop : List Prompt → FS → Except String (FS × List String)
  | [], fs => .ok (fs, [])
  | p :: rest, fs =>
    match writeDoc fs (derive_filename p) (generate_prompt p) with
    | .error e => .error e
    | .ok fs' =>
      match runLoop rest fs' with
      | .error e => .error e
      | .ok (fs'', out) => .ok (fs'', ("Created F" ++ pad3 p.num) :: out)

/-- Lines 307–318: the whole program run — the loop, then the final
`print(f"\nTotal prompts created: {len(prompts)}")`. -/
def run (ps : List Prompt) (fs : FS) : Except String (FS × List String) :=
  match runLoop ps fs with
  | .error e => .error e
  | .ok (fs', out) => .ok (fs', out ++ ["\nTotal prompts created: " ++ toString ps.length])

/-- The (path, content) pairs a run writes, in write order. -/
def runWrites (ps : List Prompt) : List (String × String) :=
  ps.map (fun p => (derive_filename p, generate_prompt p))

/-! ## Line-level view of a document, to state that a section heading
does not occur anywhere in a rendered document. -/

/-- Split a character list at newlines (the list of lines, each without
its terminating newline). -/
def splitLines : List Char → List (List Char)
  | [] => [[]]
  | c :: cs =>
    if c = '\n' then [] :: splitLines cs
    else
      match splitLines cs with
      | [] => [[c]]
      | l :: ls => (c :: l) :: ls

/-- `hasLineB s l` is true when `l` occurs in `s` as a whole line. -/
def hasLineB (s l : String) : Bool :=
  (splitLines s.data).contains l.data


/-! ## Characterization of the write loop -/

/-- Apply a list of (path, content) writes in order. -/
def applyWrites (ws : List (String × String)) (files : List (String × String)) :
    List (String × String) :=
  ws.foldl (fun acc kv => setFile acc kv.1 kv.2) files

/-- The `Created F...` console lines, one per record, in input order. -/
def consoleOf (ps : List Prompt) : List String :=
  ps.map (fun p => "Created F" ++ pad3 p.num)

/-- The final summary line (line 318). -/
def summaryLine (ps : List Prompt) : String :=
  "\nTotal prompts created: " ++ toString ps.length

theorem getFile_setFile_self (l : List (String × String)) (k v : String) :
    getFile (setFile l k v) k = some v := by
  induction l with
  | nil => simp [setFile, getFile]
  | cons hd t ih =>
    obtain ⟨k', v'⟩ := hd
    by_cases h : k' = k
    · simp [setFile, h, getFile]
    · simp [setFile, h, getFile, ih]

theorem getFile_setFile_ne (l : List (String × String)) (k0 v k : String)
    (h : k ≠ k0) : getFile (setFile l k0 v) k = getFile l k := by
  have h' : ¬ k0 = k := fun hh => h hh.symm
  induction l with
  | nil =>
    simp only [setFile, getFile]
    rw [if_neg h']
  | cons hd t ih =>
    obtain ⟨k', v'⟩ := hd
    by_cases h1 : k' = k0
    · subst h1
      simp only [setFile, if_pos rfl, getFile]
      rw [if_neg h', if_neg h']
    · simp only [setFile, if_neg h1, getFile]
      by_cases h2 : k' = k
      · rw [if_pos h2, if_pos h2]
      · rw [if_neg h2, if_neg h2, ih]

theorem getFile_applyWrites_not_mem (ws : List (String × String)) :
    ∀ files k, k ∉ ws.map Prod.fst →
      getFile (applyWrites ws files) k = getFile files k := by
  induction ws with
  | nil => intro files k _; rfl
  | cons hd t ih =>
    obtain ⟨k0, v0⟩ := hd
    intro files k hk
    rw [List.map_cons, List.mem_cons] at hk
    push_neg at hk
    calc getFile (applyWrites t (setFile files k0 v0)) k
        = getFile (setFile files k0 v0) k := ih _ k hk.2
      _ = getFile files k := getFile_setFile_ne _ _ _ _ hk.1

theorem getFile_applyWrites_mem (ws : List (String × String)) :
    ∀ files k v, (ws.map Prod.fst).Nodup → (k, v) ∈ ws →
      getFile (applyWrites ws files) k = some v := by
  induction ws with
  | nil => intro files k v _ hm; cases hm
  | cons hd t ih =>
    obtain ⟨k0, v0⟩ := hd
    intro files k v hnd hm
    rw [List.map_cons, List.nodup_cons] at hnd
    rcases List.mem_cons.mp hm with heq | htl
    · have hk : k = k0 := congrArg Prod.fst heq
      have hv : v = v0 := congrArg Prod.snd heq
      subst hk
      subst hv
      calc getFile (applyWrites t (setFile files k v)) k
          = getFile (setFile files k v) k :=
            getFile_applyWrites_not_mem t _ k hnd.1
        _ = some v := getFile_setFile_self _ _ _
    · exact ih _ k v hnd.2 htl

/-- On a state where the output directory exists, the loop succeeds,
applies exactly the writes of `runWrites` in order, and emits one
`Created` line per record in input order. -/
theorem runLoop_ok (ps : List Prompt) :
    ∀ files, runLoop ps ⟨true, files⟩ =
      .ok (⟨true, applyWrites (runWrites ps) files⟩, consoleOf ps) := by
  induction ps with
  | nil => intro files; rfl
  | cons p rest ih =>
    intro files
    have hw : writeDoc ⟨true, files⟩ (derive_filename p) (generate_prompt p) =
        .ok ⟨true, setFile files (derive_filename p) (generate_prompt p)⟩ := rfl
    simp only [runLoop, hw, ih]
    rfl

/-- Full-run version of `runLoop_ok`, with the summary line appended. -/
theorem run_ok (ps : List Prompt) (files : List (String × String)) :
    run ps ⟨true, files⟩ =
      .ok (⟨true, applyWrites (runWrites ps) files⟩,
           consoleOf ps ++ [summaryLine ps]) := by
  simp only [run, runLoop_ok ps files]
  rfl

/-- The output paths of the static record table are pairwise distinct. -/
theorem prompts_filenames_nodup : (prompts.map derive_filename).Nodup := by
  decide

/-- Keys of `runWrites` are the derived filenames. -/
theorem runWrites_keys (ps : List Prompt) :
    (runWrites ps).map Prod.fst = ps.map derive_filename := by
  simp [runWrites]

/-- After applying all writes of a record list with pairwise-distinct
derived filenames, every record's path holds its full rendered text. -/
theorem run_writes_all (ps : List Prompt) (files : List (String × String))
    (hnd : (ps.map derive_filename).Nodup) :
    ∀ p ∈ ps, getFile (applyWrites (runWrites ps) files) (derive_filename p) =
      some (generate_prompt p) := by
  intro p hp
  apply getFile_applyWrites_mem
  · rw [runWrites_keys]
    exact hnd
  · exact List.mem_map_of_mem _ hp

/-! ## Auxiliary facts for the claims -/

/-- Everything the script appends before the cross-reference footer. -/
def bodyBefore (p : Prompt) : String :=
  headerPart p ++ decPart p ++ ecPart p ++ crPart p ++ constraintsPart p ++
  filesTablePart p ++ implPart p ++ acceptancePart ++ commitMsgPart p ++
  decisionsLine p ++ edgeCasesLine p ++ attributionPart

theorem generate_prompt_split (p : Prompt) :
    generate_prompt p = bodyBefore p ++ nextPart p := rfl

/-- The maximum `sequence_number` of the record table. -/
def maxSeq : Nat :=
  (prompts.map Prompt.num).foldl Nat.max 0

theorem maxSeq_eq : maxSeq = 32 := by decide

theorem nextPart_lt {p : Prompt} (h : p.num < 32) :
    nextPart p = nextPointer (p.num + 1) := by
  unfold nextPart
  rw [if_pos h]

theorem nextPart_ge {p : Prompt} (h : ¬ p.num < 32) :
    nextPart p = allCompleteFooter := by
  unfold nextPart
  rw [if_neg h]

/-- The next-record pointer is never the completion sentinel (checked for
every number that can occur as `num + 1` for a record below the
threshold). -/
theorem nextPointer_ne_allComplete : ∀ n < 33, nextPointer n ≠ allCompleteFooter := by
  decide

/-- Within the static table, a successor record exists exactly for the
records below the hard-coded threshold 32. -/
theorem prompts_next_iff :
    ∀ p ∈ prompts, (p.num < 32 ↔ ∃ q ∈ prompts, q.num = p.num + 1) := by
  decide

/-- A minimal record with `sequence_number 1` (used for invalid-set runs). -/
def g1 : Prompt :=
  { num := 1, title := "a", objective := "o", depends := [], files := [],
    commands := "", scope := "g-one", decisions := [], edge_cases := [],
    code_refs := [] }

/-- A minimal record with `sequence_number 3`. -/
def g3 : Prompt :=
  { num := 3, title := "b", objective := "o", depends := [], files := [],
    commands := "", scope := "g-three", decisions := [], edge_cases := [],
    code_refs := [] }

/-- A second minimal record with the duplicate `sequence_number 1`. -/
def g1b : Prompt :=
  { num := 1, title := "c", objective := "o", depends := [], files := [],
    commands := "", scope := "g-dup", decisions := [], edge_cases := [],
    code_refs := [] }

/-- A record set with a gap in its sequence numbers (1, 3 — no 2). -/
def gappedPrompts : List Prompt := [g1, g3]

/-- A record set with a duplicated sequence number (1, 1). -/
def dupPrompts : List Prompt := [g1, g1b]

/-! ## Claims -/

/-- C1: for every record of the static table, when a record with
`sequence_number + 1` exists in the set the rendered document ends with
the cross-reference footer pointing at the next record's expected output
filename (zero-padded two-digit number, wildcard category), and the
record carrying the maximum `sequence_number` instead ends with the fixed
all-complete sentinel text. -/
theorem C1_footer_cross_reference :
    ∀ p ∈ prompts,
      ((∃ q ∈ prompts, q.num = p.num + 1) →
        generate_prompt p = bodyBefore p ++ nextPointer (p.num + 1)) ∧
      (p.num = maxSeq →
        generate_prompt p = bodyBefore p ++ allCompleteFooter) := by
  intro p hp
  constructor
  · intro hex
    have hlt : p.num < 32 := (prompts_next_iff p hp).mpr hex
    rw [generate_prompt_split, nextPart_lt hlt]
  · intro hmax
    have h32 : p.num = 32 := by rw [hmax, maxSeq_eq]
    have hge : ¬ p.num < 32 := by omega
    rw [generate_prompt_split, nextPart_ge hge]

/-- Witness for C1 at the concrete records F031 (successor F032 exists)
and F032 (the maximum). -/
theorem C1_footer_cross_reference_witness :
    f031 ∈ prompts ∧ (∃ q ∈ prompts, q.num = f031.num + 1) ∧
    generate_prompt f031 = bodyBefore f031 ++ nextPointer (f031.num + 1) ∧
    f032 ∈ prompts ∧ f032.num = maxSeq ∧
    generate_prompt f032 = bodyBefore f032 ++ allCompleteFooter := by
  have h31 : f031 ∈ prompts := by decide
  have h32 : f032 ∈ prompts := by decide
  have hex : ∃ q ∈ prompts, q.num = f031.num + 1 := ⟨f032, h32, by decide⟩
  have hm : f032.num = maxSeq := by decide
  exact ⟨h31, hex, (C1_footer_cross_reference f031 h31).1 hex, h32, hm,
    (C1_footer_cross_reference f032 h32).2 hm⟩

/-- C4: `derive_filename` is the configured output directory, a slash,
the zero-padded two-digit `sequence_number`, a hyphen, the
`category_tag`, and the fixed `.md` extension; the record with
`sequence_number 7` and tag `layout` maps to `07-layout.md`. -/
theorem C4_derive_filename :
    (∀ p : Prompt, derive_filename p =
      base_dir ++ "/" ++ (pad2 p.num ++ "-" ++ p.scope ++ ".md")) ∧
    shortName layoutRec = "07-layout.md" ∧
    derive_filename layoutRec = base_dir ++ "/" ++ "07-layout.md" := by
  refine ⟨fun p => rfl, by decide, by decide⟩

/-- C5: each conditional section is present in the rendered document iff
its source list is non-empty (one bullet per reference), and record F010
— whose three optional lists are all empty — renders to a document
containing none of the three section headings, while F013 (one decision
ref) does contain the decisions heading. -/
theorem C5_conditional_sections :
    (∀ p : Prompt, p.decisions ≠ [] →
      ∃ pre post, generate_prompt p = pre ++ decisionsSection p.decisions ++ post) ∧
    (∀ p : Prompt, p.decisions = [] → decPart p = "") ∧
    (∀ p : Prompt, p.edge_cases ≠ [] →
      ∃ pre post, generate_prompt p = pre ++ edgeCasesSection p.edge_cases ++ post) ∧
    (∀ p : Prompt, p.edge_cases = [] → ecPart p = "") ∧
    (∀ p : Prompt, p.code_refs ≠ [] →
      ∃ pre post, generate_prompt p = pre ++ codeRefsSection p.code_refs ++ post) ∧
    (∀ p : Prompt, p.code_refs = [] → crPart p = "") ∧
    (∀ ds : List String, (ds.map decisionBullet).length = ds.length) ∧
    (f010.decisions = [] ∧ hasLineB (generate_prompt f010) "## Relevant Decisions" = false) ∧
    (f010.edge_cases = [] ∧ hasLineB (generate_prompt f010) "## Edge Cases to Handle" = false) ∧
    (f010.code_refs = [] ∧ hasLineB (generate_prompt f010) "## Code References" = false) ∧
    (f013.decisions ≠ [] ∧ hasLineB (generate_prompt f013) "## Relevant Decisions" = true) := by
  refine ⟨?_, ?_, ?_, ?_, ?_, ?_, fun ds => by simp,
    ⟨rfl, by decide⟩, ⟨rfl, by decide⟩, ⟨rfl, by decide⟩, ⟨by decide, by decide⟩⟩
  · intro p h
    refine ⟨headerPart p,
      ecPart p ++ crPart p ++ constraintsPart p ++ filesTablePart p ++ implPart p ++
      acceptancePart ++ commitMsgPart p ++ decisionsLine p ++ edgeCasesLine p ++
      attributionPart ++ nextPart p, ?_⟩
    have hd : decPart p = decisionsSection p.decisions := by
      unfold decPart
      rw [if_neg h]
    simp only [generate_prompt, hd, String.append_assoc]
  · intro p h
    unfold decPart
    rw [if_pos h]
  · intro p h
    refine ⟨headerPart p ++ decPart p,
      crPart p ++ constraintsPart p ++ filesTablePart p ++ implPart p ++
      acceptancePart ++ commitMsgPart p ++ decisionsLine p ++ edgeCasesLine p ++
      attributionPart ++ nextPart p, ?_⟩
    have he : ecPart p = edgeCasesSection p.edge_cases := by
      unfold ecPart
      rw [if_neg h]
    simp only [generate_prompt, he, String.append_assoc]
  · intro p h
    unfold ecPart
    rw [if_pos h]
  · intro p h
    refine ⟨headerPart p ++ decPart p ++ ecPart p,
      constraintsPart p ++ filesTablePart p ++ implPart p ++
      acceptancePart ++ commitMsgPart p ++ decisionsLine p ++ edgeCasesLine p ++
      attributionPart ++ nextPart p, ?_⟩
    have hc : crPart p = codeRefsSection p.code_refs := by
      unfold crPart
      rw [if_neg h]
    simp only [generate_prompt, hc, String.append_assoc]
  · intro p h
    unfold crPart
    rw [if_pos h]

/-- Witness for C5 at the concrete records F013 (non-empty decisions) and
F014 (empty decisions). -/
theorem C5_conditional_sections_witness :
    f013.decisions ≠ [] ∧
    (∃ pre post, generate_prompt f013 = pre ++ decisionsSection f013.decisions ++ post) ∧
    f014.decisions = [] ∧ decPart f014 = "" := by
  refine ⟨by decide, C5_conditional_sections.1 f013 (by decide), by decide,
    C5_conditional_sections.2.1 f014 (by decide)⟩

/-- C6: over the static record set, records whose
(`sequence_number`, `category_tag`) pairs differ derive different output
paths. -/
theorem C6_filenames_injective :
    ∀ p ∈ prompts, ∀ q ∈ prompts,
      (p.num, p.scope) ≠ (q.num, q.scope) → derive_filename p ≠ derive_filename q := by
  decide

/-- Witness for C6 at the concrete records F010 and F011. -/
theorem C6_filenames_injective_witness :
    f010 ∈ prompts ∧ f011 ∈ prompts ∧
    (f010.num, f010.scope) ≠ (f011.num, f011.scope) ∧
    derive_filename f010 ≠ derive_filename f011 := by
  refine ⟨by decide, by decide, by decide,
    C6_filenames_injective f010 (by decide) f011 (by decide) (by decide)⟩

/-- C7: every rendered document contains the commit-message template:
the conventional-commit first line `feat(<category_tag>): <lowercased
title>`, a blank line, the objective, and the trailing
`Implements: F<zero-padded id>` line; when the optional reference lists
are non-empty the document also contains the joined `Decisions:` and
`Edge Cases:` trailer lines. -/
theorem C7_commit_template :
    ∀ p : Prompt,
      (commitMsgPart p = "feat(" ++ p.scope ++ "): " ++ pyLower p.title ++ "\n\n" ++
        p.objective ++ "\n\nImplements: F" ++ pad3 p.num ++ "\n") ∧
      (∃ pre post, generate_prompt p = pre ++ commitMsgPart p ++ post) ∧
      (p.decisions ≠ [] → ∃ pre post, generate_prompt p =
        pre ++ ("Decisions: " ++ joinSep ", " p.decisions ++ "\n") ++ post) ∧
      (p.edge_cases ≠ [] → ∃ pre post, generate_prompt p =
        pre ++ ("Edge Cases: " ++ joinSep ", " p.edge_cases ++ "\n") ++ post) := by
  intro p
  refine ⟨rfl, ?_, ?_, ?_⟩
  · refine ⟨headerPart p ++ decPart p ++ ecPart p ++ crPart p ++ constraintsPart p ++
      filesTablePart p ++ implPart p ++ acceptancePart,
      decisionsLine p ++ edgeCasesLine p ++ attributionPart ++ nextPart p, ?_⟩
    simp only [generate_prompt, String.append_assoc]
  · intro h
    have hd : decisionsLine p = "Decisions: " ++ joinSep ", " p.decisions ++ "\n" := by
      unfold decisionsLine
      rw [if_neg h]
    refine ⟨headerPart p ++ decPart p ++ ecPart p ++ crPart p ++ constraintsPart p ++
      filesTablePart p ++ implPart p ++ acceptancePart ++ commitMsgPart p,
      edgeCasesLine p ++ attributionPart ++ nextPart p, ?_⟩
    simp only [generate_prompt, hd, String.append_assoc]
  · intro h
    have he : edgeCasesLine p = "Edge Cases: " ++ joinSep ", " p.edge_cases ++ "\n" := by
      unfold edgeCasesLine
      rw [if_neg h]
    refine ⟨headerPart p ++ decPart p ++ ecPart p ++ crPart p ++ constraintsPart p ++
      filesTablePart p ++ implPart p ++ acceptancePart ++ commitMsgPart p ++
      decisionsLine p, attributionPart ++ nextPart p, ?_⟩
    simp only [generate_prompt, he, String.append_assoc]

/-- Witness for C7 at the concrete record F015, which carries both a
decision ref and an edge-case ref. -/
theorem C7_commit_template_witness :
    f015.decisions ≠ [] ∧ f015.edge_cases ≠ [] ∧
    (∃ pre post, generate_prompt f015 =
      pre ++ ("Decisions: " ++ joinSep ", " f015.decisions ++ "\n") ++ post) ∧
    (∃ pre post, generate_prompt f015 =
      pre ++ ("Edge Cases: " ++ joinSep ", " f015.edge_cases ++ "\n") ++ post) := by
  refine ⟨by decide, by decide, (C7_commit_template f015).2.2.1 (by decide),
    (C7_commit_template f015).2.2.2 (by decide)⟩

/-- C10: the rendered document is a function of the record alone — the
pair a run writes for a record is the same in any two runs whose inputs
both contain it — and its footer is the completion sentinel exactly when
the record's `sequence_number` is at least the fixed constant 32,
pointing at `sequence_number + 1` otherwise. -/
theorem C10_render_depends_only_on_record :
    (∀ p : Prompt, generate_prompt p = bodyBefore p ++ nextPart p) ∧
    (∀ p : Prompt, (nextPart p = allCompleteFooter ↔ 32 ≤ p.num)) ∧
    (∀ p : Prompt, p.num < 32 → nextPart p = nextPointer (p.num + 1)) ∧
    (∀ (l₁ l₂ : List Prompt) (p : Prompt), p ∈ l₁ → p ∈ l₂ →
      ∃ c, (derive_filename p, c) ∈ runWrites l₁ ∧ (derive_filename p, c) ∈ runWrites l₂) := by
  refine ⟨fun p => generate_prompt_split p, ?_, fun p h => nextPart_lt h, ?_⟩
  · intro p
    constructor
    · intro h
      by_cases hl : p.num < 32
      · exact absurd ((nextPart_lt hl) ▸ h)
          (nextPointer_ne_allComplete (p.num + 1) (by omega))
      · omega
    · intro h32
      exact nextPart_ge (by omega)
  · intro l₁ l₂ p h1 h2
    exact ⟨generate_prompt p, List.mem_map_of_mem _ h1, List.mem_map_of_mem _ h2⟩

/-- Witness for C10 at the concrete records F010 (below the threshold,
contained in two different record lists) and F032 (at the threshold). -/
theorem C10_render_depends_only_on_record_witness :
    f010 ∈ prompts ∧ f010 ∈ [f010] ∧ f010.num < 32 ∧
    nextPart f010 = nextPointer (f010.num + 1) ∧
    32 ≤ f032.num ∧ nextPart f032 = allCompleteFooter ∧
    (∃ c, (derive_filename f010, c) ∈ runWrites prompts ∧
      (derive_filename f010, c) ∈ runWrites [f010]) := by
  refine ⟨by decide, by decide, by decide,
    C10_render_depends_only_on_record.2.2.1 f010 (by decide), by decide,
    (C10_render_depends_only_on_record.2.1 f032).mpr (by decide),
    C10_render_depends_only_on_record.2.2.2 prompts [f010] f010 (by decide) (by decide)⟩

/-- C2 counterexample: on a filesystem state where the output directory
is absent, the run does not succeed — it fails on the very first record
with the `open` error, because the script never creates the directory
(its `os` import is unused). -/
theorem C2_missing_dir_counterexample :
    run prompts ⟨false, []⟩ = .error ("FileNotFoundError: " ++ derive_filename f010) := rfl

/-- C2 (amended): for every record, the run writes the full rendered text
to the derived path when the output directory exists (overwriting, not
appending); it does not create the directory, and a run against a
filesystem state without the directory fails instead of succeeding. -/
theorem C2_run_writes_amended :
    (∀ fs : FS, fs.dirExists = true →
      ∃ fl out, run prompts fs = .ok (⟨true, fl⟩, out) ∧
        ∀ p ∈ prompts, getFile fl (derive_filename p) = some (generate_prompt p)) ∧
    (∀ fs : FS, fs.dirExists = false → ∀ fs' out, run prompts fs ≠ .ok (fs', out)) := by
  constructor
  · intro fs h
    obtain ⟨d, files⟩ := fs
    cases d
    · simp at h
    · exact ⟨applyWrites (runWrites prompts) files,
        consoleOf prompts ++ [summaryLine prompts], run_ok prompts files,
        run_writes_all prompts files prompts_filenames_nodup⟩
  · intro fs h fs' out hcontra
    obtain ⟨d, files⟩ := fs
    cases d
    · have herr : run prompts ⟨false, files⟩ =
          .error ("FileNotFoundError: " ++ derive_filename f010) := rfl
      rw [herr] at hcontra
      simp at hcontra
    · simp at h

/-- Witness for C2 (amended) at the concrete states with and without the
output directory. -/
theorem C2_run_writes_amended_witness :
    FS.dirExists ⟨true, []⟩ = true ∧
    (∃ fl out, run prompts ⟨true, []⟩ = .ok (⟨true, fl⟩, out) ∧
      ∀ p ∈ prompts, getFile fl (derive_filename p) = some (generate_prompt p)) ∧
    FS.dirExists ⟨false, []⟩ = false ∧
    (∀ fs' out, run prompts ⟨false, []⟩ ≠ .ok (fs', out)) :=
  ⟨rfl, C2_run_writes_amended.1 ⟨true, []⟩ rfl, rfl, C2_run_writes_amended.2 ⟨false, []⟩ rfl⟩

/-- C3 counterexample: the record set with sequence numbers 1 and 3 — a
gap, 2 is missing — is not rejected at any point: the run succeeds and
writes both documents. -/
theorem C3_no_validation_counterexample :
    (2 ∉ gappedPrompts.map Prompt.num ∧ 1 ∈ gappedPrompts.map Prompt.num ∧
      3 ∈ gappedPrompts.map Prompt.num) ∧
    ∃ fl out, run gappedPrompts ⟨true, []⟩ = .ok (⟨true, fl⟩, out) ∧
      getFile fl (derive_filename g1) = some (generate_prompt g1) ∧
      getFile fl (derive_filename g3) = some (generate_prompt g3) := by
  have hnd : (gappedPrompts.map derive_filename).Nodup := by decide
  exact ⟨by decide, applyWrites (runWrites gappedPrompts) [],
    consoleOf gappedPrompts ++ [summaryLine gappedPrompts], run_ok gappedPrompts [],
    run_writes_all gappedPrompts [] hnd g1 (by decide),
    run_writes_all gappedPrompts [] hnd g3 (by decide)⟩

/-- C3 (amended): the program performs no construction- or
validation-time check of the record set: runs over a set with a gap in
its sequence numbers and over a set with a duplicated sequence number
both complete without any failure. -/
theorem C3_no_validation_amended :
    ∀ fs : FS, fs.dirExists = true →
      (run gappedPrompts fs).isOk = true ∧ (run dupPrompts fs).isOk = true := by
  intro fs h
  obtain ⟨d, files⟩ := fs
  cases d
  · simp at h
  · rw [run_ok gappedPrompts files, run_ok dupPrompts files]
    exact ⟨rfl, rfl⟩

/-- Witness for C3 (amended) at the concrete empty-directory state. -/
theorem C3_no_validation_amended_witness :
    FS.dirExists ⟨true, []⟩ = true ∧
    (run gappedPrompts ⟨true, []⟩).isOk = true ∧
    (run dupPrompts ⟨true, []⟩).isOk = true :=
  ⟨rfl, C3_no_validation_amended ⟨true, []⟩ rfl⟩

/-- C8: a successful run prints exactly one `Created F<id>` line per
record, in input order, followed by exactly one summary line carrying the
total record count. -/
theorem C8_console_output :
    ∀ fs : FS, fs.dirExists = true →
      ∃ fs', run prompts fs = .ok (fs',
        prompts.map (fun p => "Created F" ++ pad3 p.num) ++ [summaryLine prompts]) ∧
      summaryLine prompts = "\nTotal prompts created: " ++ toString prompts.length ∧
      (prompts.map (fun p => "Created F" ++ pad3 p.num)).length = prompts.length := by
  intro fs h
  obtain ⟨d, files⟩ := fs
  cases d
  · simp at h
  · exact ⟨_, run_ok prompts files, rfl, by simp⟩

/-- Witness for C8 at the concrete empty-directory state. -/
theorem C8_console_output_witness :
    FS.dirExists ⟨true, []⟩ = true ∧
    ∃ fs', run prompts ⟨true, []⟩ = .ok (fs',
      prompts.map (fun p => "Created F" ++ pad3 p.num) ++ [summaryLine prompts]) ∧
    summaryLine prompts = "\nTotal prompts created: " ++ toString prompts.length ∧
    (prompts.map (fun p => "Created F" ++ pad3 p.num)).length = prompts.length :=
  ⟨rfl, C8_console_output ⟨true, []⟩ rfl⟩

/-- C9: running the generator twice against the same output directory is
idempotent — the second run succeeds from the first run's state, emits
the same console output, and every output path holds the same full
rendered text after either run (overwrite, not append). -/
theorem C9_idempotent :
    ∀ fs : FS, fs.dirExists = true →
      ∃ fl₁ out fl₂, run prompts fs = .ok (⟨true, fl₁⟩, out) ∧
        run prompts ⟨true, fl₁⟩ = .ok (⟨true, fl₂⟩, out) ∧
        ∀ p ∈ prompts,
          getFile fl₁ (derive_filename p) = some (generate_prompt p) ∧
          getFile fl₂ (derive_filename p) = some (generate_prompt p) := by
  intro fs h
  obtain ⟨d, files⟩ := fs
  cases d
  · simp at h
  · refine ⟨applyWrites (runWrites prompts) files,
      consoleOf prompts ++ [summaryLine prompts],
      applyWrites (runWrites prompts) (applyWrites (runWrites prompts) files),
      run_ok prompts files, run_ok prompts _, ?_⟩
    intro p hp
    exact ⟨run_writes_all prompts files prompts_filenames_nodup p hp,
      run_writes_all prompts _ prompts_filenames_nodup p hp⟩

/-- Witness for C9 at the concrete empty-directory state. -/
theorem C9_idempotent_witness :
    FS.dirExists ⟨true, []⟩ = true ∧
    ∃ fl₁ out fl₂, run prompts ⟨true, []⟩ = .ok (⟨true, fl₁⟩, out) ∧
      run prompts ⟨true, fl₁⟩ = .ok (⟨true, fl₂⟩, out) ∧
      ∀ p ∈ prompts,
        getFile fl₁ (derive_filename p) = some (generate_prompt p) ∧
        getFile fl₂ (derive_filename p) = some (generate_prompt p) :=
  ⟨rfl, C9_idempotent ⟨true, []⟩ rfl⟩
